import Mathlib

/-!
Verification of the transparent-read module of bmap-tools
(`bmaptools/TransRead.py`).  The Python source is shallowly embedded:
the static extension tables become Lean lists (in the source's
insertion order, which is the iteration order of the loops), the pure
helper functions become Lean functions, and the effectful parts
(network open retry loop, feeder thread, teardown) become explicit
state-passing functions parameterised by oracles for their external
collaborators (the availability checker, the underlying stream, the
scheduler-visible done flag).
-/

namespace TransRead

/-- Python's `str.endswith`, modelled as a suffix test on the character
sequences of the two strings. -/
def endswith (name suffix : String) : Bool :=
  suffix.data.isSuffixOf name.data

/-- Info record of a `DECOMPRESSER_EXTENSIONS` entry: dict keys
`type`, `program`, `args` in the source. -/
structure DecompInfo where
  ctype : String
  program : String
  args : String
deriving DecidableEq

/-- Info record of a `NESTED_DECOMPRESSER_EXTENSIONS` entry: dict keys
`program`, `args` in the source. -/
structure NestedInfo where
  program : String
  args : String
deriving DecidableEq

/-- `EXTENSION_ALIASES` dict (source lines 62-71), in insertion order. -/
def EXTENSION_ALIASES : List (String × String) :=
  [(".tbz2", ".tar.bz2"),
   (".tbz",  ".tar.bz2"),
   (".tb2",  ".tar.bz2"),
   (".tgz",  ".tar.gz"),
   (".txz",  ".tar.xz"),
   (".tzo",  ".tar.lzo"),
   (".tlz4", ".tar.lz4"),
   (".gzip", ".gz")]

/-- `NESTED_EXTENSION_ALIASES` dict (source lines 74-76). -/
def NESTED_EXTENSION_ALIASES : List (String × String) :=
  [(".tar.gzip", ".tar.gz")]

/-- `DECOMPRESSER_EXTENSIONS` dict (source lines 79-87), in insertion order. -/
def DECOMPRESSER_EXTENSIONS : List (String × DecompInfo) :=
  [(".bz2", ⟨"bzip2", "bzip2",  "-d -c"⟩),
   (".gz",  ⟨"gzip",  "gzip",   "-d -c"⟩),
   (".xz",  ⟨"xz",    "xz",     "-d -c"⟩),
   (".lzo", ⟨"lzo",   "lzop",   "-d -c"⟩),
   (".lz4", ⟨"lz4",   "lz4",    "-d -c"⟩),
   (".zip", ⟨"zip",   "funzip", ""⟩),
   (".tar", ⟨"tar",   "tar",    "-x -O"⟩)]

/-- `NESTED_DECOMPRESSER_EXTENSIONS` dict (source lines 90-96), in
insertion order. -/
def NESTED_DECOMPRESSER_EXTENSIONS : List (String × NestedInfo) :=
  [(".tar.bz2", ⟨"tar", "-x -j -O"⟩),
   (".tar.gz",  ⟨"tar", "-x -z -O"⟩),
   (".tar.xz",  ⟨"tar", "-x -J -O"⟩),
   (".tar.lzo", ⟨"tar", "-x --lzo -O"⟩),
   (".tar.lz4", ⟨"tar", "-x -Ilz4 -O"⟩)]

/-- `_get_archive_extension` (source lines 266-279): four suffix scans in
order; the first two return the dict value (the canonical alias target),
the last two return the matching extension itself. -/
def get_archive_extension (name : String) : Option String :=
  (NESTED_EXTENSION_ALIASES.findSome?
      (fun p => if endswith name p.1 then some p.2 else none)).orElse fun _ =>
  (EXTENSION_ALIASES.findSome?
      (fun p => if endswith name p.1 then some p.2 else none)).orElse fun _ =>
  (NESTED_DECOMPRESSER_EXTENSIONS.findSome?
      (fun p => if endswith name p.1 then some p.1 else none)).orElse fun _ =>
  DECOMPRESSER_EXTENSIONS.findSome?
      (fun p => if endswith name p.1 then some p.1 else none)

/-- The documented precedence table of the spec (section 4.1 / 8): the
ordered concatenation of the four tiers — nested aliased extensions,
single-level aliased extensions, canonical nested extensions (resolving
to themselves), canonical single extensions (resolving to themselves) —
with first match winning. -/
def spec_resolve_table : List (String × String) :=
  NESTED_EXTENSION_ALIASES ++ EXTENSION_ALIASES
    ++ NESTED_DECOMPRESSER_EXTENSIONS.map (fun p => (p.1, p.1))
    ++ DECOMPRESSER_EXTENSIONS.map (fun p => (p.1, p.1))

/-- Spec-side format resolver: one first-match-wins suffix scan over the
documented precedence table. -/
def spec_FormatResolver (name : String) : Option String :=
  spec_resolve_table.findSome?
    (fun p => if endswith name p.1 then some p.2 else none)

/-- A chained pair of first-match scans equals one scan of the
concatenated list. -/
theorem findSome?_chain {α β : Type} (f : α → Option β) (l₁ l₂ : List α) :
    ((l₁.findSome? f).orElse fun _ => l₂.findSome? f) = (l₁ ++ l₂).findSome? f := by
  induction l₁ with
  | nil => simp [Option.orElse]
  | cons a as ih =>
    rw [List.cons_append, List.findSome?_cons, List.findSome?_cons]
    cases f a with
    | none => simpa [Option.orElse] using ih
    | some b => rfl

/-- A scan that returns the matching key itself equals the pair scan over
the key-duplicated list. -/
theorem findSome?_key_self {α : Type} (l : List (String × α)) (name : String) :
    l.findSome? (fun p => if endswith name p.1 then some p.1 else none)
      = (l.map (fun p => (p.1, p.1))).findSome?
          (fun p => if endswith name p.1 then some p.2 else none) := by
  induction l with
  | nil => simp
  | cons a as ih =>
    rw [List.map_cons, List.findSome?_cons, List.findSome?_cons]
    by_cases h : endswith name a.1 <;> simp [h, ih]

/-- C1: For every file name, format resolution applies the documented
suffix precedence with first match winning — nested aliased extensions
before single-level aliased extensions, before canonical nested
extensions, before canonical single extensions — so the code's
`_get_archive_extension` coincides with the spec's one-table
first-match-wins resolver on every name; a name matching a nested or
aliased suffix resolves to the nested canonical extension rather than
to its component compression suffix, and a name matching no suffix
resolves to none. -/
theorem format_resolution_precedence :
    (∀ name : String, get_archive_extension name = spec_FormatResolver name)
      ∧ get_archive_extension "a.tar.gzip" = some ".tar.gz"
      ∧ get_archive_extension "a.tbz2" = some ".tar.bz2"
      ∧ get_archive_extension "a.gzip" = some ".gz"
      ∧ get_archive_extension "a.tar.gz" = some ".tar.gz"
      ∧ get_archive_extension "a.gz" = some ".gz"
      ∧ get_archive_extension "a.tar" = some ".tar"
      ∧ get_archive_extension "a.txt" = none := by
  refine ⟨fun name => ?_, by decide, by decide, by decide, by decide,
    by decide, by decide, by decide⟩
  rw [get_archive_extension, spec_FormatResolver, spec_resolve_table,
    findSome?_key_self NESTED_DECOMPRESSER_EXTENSIONS name,
    findSome?_key_self DECOMPRESSER_EXTENSIONS name,
    findSome?_chain, findSome?_chain, findSome?_chain, List.append_assoc,
    List.append_assoc]

/-- `errno.ENOENT`. -/
def ENOENT : Nat := 2

/-- How the constructor resolved the path: genuine local file, or
fallback to URL handling. -/
inductive SourceRoute where
  | localFile
  | urlFallback
deriving DecidableEq

/-- The local-open dispatch of `TransRead.__init__` (source lines
215-222): try `open(name, "rb")` — its outcome is the `local_open`
argument, an `IOError` carrying an errno on failure; on ENOENT fall back
to URL handling, on any other errno raise the module error. -/
def init_open_source (filepath : String) (local_open : Except Nat Unit) :
    Except String SourceRoute :=
  match local_open with
  | .ok _ => .ok .localFile
  | .error errnum =>
    if errnum = ENOENT then .ok .urlFallback
    else .error ("cannot open file " ++ filepath)

/-- C6: opening a path first attempts a local open; exactly an ENOENT
failure leads to URL treatment, every other local-open failure raises
the module error immediately, and a successful local open never goes to
the URL path. -/
theorem local_open_enoent_fallback (filepath : String) (errnum : Nat) :
    init_open_source filepath (Except.ok ()) = Except.ok SourceRoute.localFile
    ∧ (init_open_source filepath (Except.error errnum)
          = Except.ok SourceRoute.urlFallback ↔ errnum = ENOENT)
    ∧ (init_open_source filepath (Except.error errnum)
          = Except.error ("cannot open file " ++ filepath) ↔ errnum ≠ ENOENT) := by
  refine ⟨rfl, ?_, ?_⟩ <;>
    (simp only [init_open_source]; by_cases h : errnum = ENOENT <;> simp [h])

/-- The parallel-decompressor substitution of `_open_compressed_file`
(source lines 290-293): gzip becomes pigz and bzip2 becomes pbzip2 when
the parallel program is available; nothing else is touched. -/
def substitute_decompressor (avail : String → Bool) (decompressor : String) :
    String :=
  if decompressor == "gzip" && avail "pigz" then "pigz"
  else if decompressor == "bzip2" && avail "pbzip2" then "pbzip2"
  else decompressor

/-- Outcome of `_open_compressed_file` (source lines 259-337), as seen
from the outside: the compression type recorded on the stream, the list
of decoder commands spawned, and the number of feeder threads started. -/
structure PlanResult where
  compression_type : String
  spawns : List String
  threads : Nat
deriving DecidableEq

/-- `_open_compressed_file` (source lines 259-337).  `avail` is the
`BmapHelpers.program_is_available` collaborator; `hasFileno` tells
whether the last chain element has a `fileno` usable as the child's
stdin (otherwise a pipe plus feeder thread is used). -/
def open_compressed_file (avail : String → Bool) (hasFileno : Bool)
    (name : String) : Except String PlanResult :=
  match get_archive_extension name with
  | none => .ok ⟨"none", [], 0⟩
  | some archive_extension =>
    match DECOMPRESSER_EXTENSIONS.findSome?
        (fun p => if endswith archive_extension p.1 then some p.2 else none) with
    | none => .error "internal: decompressor is unbound"
    | some info =>
      if avail (substitute_decompressor avail info.program) = false then
        .error ("the " ++ substitute_decompressor avail info.program
          ++ " program is not available but it is required decompressing "
          ++ name)
      else
        match NESTED_DECOMPRESSER_EXTENSIONS.findSome?
            (fun p => if p.1 == archive_extension then some p.2 else none) with
        | some ninfo =>
          if avail ninfo.program = false then
            .error ("the " ++ ninfo.program
              ++ " program is not available but it is required reading "
              ++ name)
          else .ok ⟨info.ctype, [ninfo.program ++ " " ++ ninfo.args],
            if hasFileno then 0 else 1⟩
        | none => .ok ⟨info.ctype,
            [substitute_decompressor avail info.program ++ " " ++ info.args],
            if hasFileno then 0 else 1⟩

/-- C7: parallel-decoder substitution happens exactly for gzip→pigz and
bzip2→pbzip2, only when the parallel tool is available; every other
decoder is left untouched; and when the parallel tool is absent the
serial tool is used with no error (the final conjunct opens a `.gz`
file with pigz unavailable and gets a plain gzip command, no failure). -/
theorem decoder_substitution (avail : String → Bool) (d : String) :
    (substitute_decompressor avail "gzip"
        = if avail "pigz" then "pigz" else "gzip")
    ∧ (substitute_decompressor avail "bzip2"
        = if avail "pbzip2" then "pbzip2" else "bzip2")
    ∧ (d ≠ "gzip" → d ≠ "bzip2" → substitute_decompressor avail d = d)
    ∧ open_compressed_file (fun s => s == "gzip") true "a.gz"
        = Except.ok ⟨"gzip", ["gzip -d -c"], 0⟩ := by
  refine ⟨?_, ?_, ?_, by rfl⟩
  · by_cases h : avail "pigz" <;> simp [substitute_decompressor, h]
  · by_cases h : avail "pbzip2" <;> simp [substitute_decompressor, h]
  · intro h1 h2
    simp [substitute_decompressor, h1, h2]

/-- C7 witness: instantiation at a concrete availability oracle and a
decoder outside the two substitution pairs. -/
theorem decoder_substitution_witness :
    substitute_decompressor (fun _ => true) "xz" = "xz" :=
  (decoder_substitution (fun _ => true) "xz").2.2.1 (by decide) (by decide)

/-- C9: per stream the decoder spawn routine produces at most one child
process and at most one feeder thread, and a nested archive+compression
name is handled by a single tar invocation carrying the decompression
flag (here `tar -x -z -O` for `.tar.gz`), not by chaining a
decompressor into an archiver. -/
theorem single_decoder_stage :
    (∀ (avail : String → Bool) (hasFileno : Bool) (name : String)
        (r : PlanResult),
      open_compressed_file avail hasFileno name = Except.ok r →
        r.spawns.length ≤ 1 ∧ r.threads ≤ 1)
    ∧ open_compressed_file (fun s => s == "gzip" || s == "tar") true "a.tar.gz"
        = Except.ok ⟨"gzip", ["tar -x -z -O"], 0⟩ := by
  refine ⟨?_, by rfl⟩
  intro avail hasFileno name r h
  unfold open_compressed_file at h
  repeat' split at h
  all_goals first
    | exact Except.noConfusion h
    | (obtain rfl := Except.ok.inj h; exact ⟨by simp, by simp⟩)

/-- C9 witness: instantiation at the `.tar.gz` plan. -/
theorem single_decoder_stage_witness :
    (PlanResult.mk "gzip" ["tar -x -z -O"] 0).spawns.length ≤ 1
    ∧ (PlanResult.mk "gzip" ["tar -x -z -O"] 0).threads ≤ 1 :=
  single_decoder_stage.1 (fun s => s == "gzip" || s == "tar") true
    "a.tar.gz" (PlanResult.mk "gzip" ["tar -x -z -O"] 0) (by rfl)

/-- Error raised when the ssh client is missing (source lines 354-356). -/
def ssh_unavailable_error : String :=
  "the ssh program is not available but it is required for downloading over the ssh protocol"

/-- Error raised when sshpass is missing (source lines 371-373). -/
def sshpass_unavailable_error : String :=
  "the sshpass program is not available but it is required for password-based SSH authentication"

/-- The program-availability checks of `_open_url_ssh` (source lines
353-373): first the ssh client is checked; then, when the URL carries a
password, the guard that is supposed to detect a missing sshpass runs —
but the source's condition on line 371 tests
`program_is_available("ssh")` again, not `"sshpass"`, which this
embedding reproduces verbatim. -/
def open_url_ssh_checks (avail : String → Bool) (has_password : Bool) :
    Except String Unit :=
  if avail "ssh" = false then .error ssh_unavailable_error
  else if has_password then
    if avail "ssh" = false then .error sshpass_unavailable_error
    else .ok ()
  else .ok ()

/-- C4 (code bug): with ssh present and sshpass absent, a password-laden
ssh URL passes both availability checks instead of failing with the
sshpass error — the sshpass failure condition is dead code because the
source tests the availability of "ssh" where it means "sshpass". -/
theorem sshpass_check_dead :
    (∀ (avail : String → Bool) (has_password : Bool),
      open_url_ssh_checks avail has_password
        ≠ Except.error sshpass_unavailable_error)
    ∧ open_url_ssh_checks (fun s => s == "ssh") true = Except.ok ()
    ∧ (fun s => s == "ssh") "sshpass" = false := by
  refine ⟨?_, by rfl, by decide⟩
  intro avail has_password
  unfold open_url_ssh_checks
  split
  · simp only [ne_eq, Except.error.injEq, ssh_unavailable_error,
      sshpass_unavailable_error]
    decide
  · split <;> simp

/-- Outcome of one `opener.open(url, timeout=...)` attempt: success, a
timeout-kind exception (`socket.timeout`, or `URLError` whose reason is
a timeout), or any other caught exception. -/
inductive UrlOutcome where
  | success
  | timedOut
  | hardFailure
deriving DecidableEq

/-- Observable trace of the `_open_url` retry loop: the timeouts of the
attempts actually made (in order), the number of warnings printed, and
whether the loop finished or raised the module error. -/
structure UrlTrace where
  attempts : List (Option Nat)
  warnings : Nat
  result : Except String Unit

/-- The body of the `for timeout in (10, None)` loop of `_open_url`
(source lines 478-498), parameterised by an oracle giving the outcome
of an open attempt at each timeout value.  A success just continues the
loop; a timeout-kind failure warns and continues when a finite timeout
was set and raises otherwise; any other failure raises at once. -/
def open_url_go (oracle : Option Nat → UrlOutcome) :
    List (Option Nat) → UrlTrace
  | [] => ⟨[], 0, Except.ok ()⟩
  | t :: rest =>
    match oracle t with
    | .success =>
      let r := open_url_go oracle rest
      ⟨t :: r.attempts, r.warnings, r.result⟩
    | .timedOut =>
      if t.isSome then
        let r := open_url_go oracle rest
        ⟨t :: r.attempts, r.warnings + 1, r.result⟩
      else ⟨[t], 0, Except.error "cannot open URL"⟩
    | .hardFailure => ⟨[t], 0, Except.error "cannot open URL"⟩

/-- `_open_url`'s generic-network open loop: two attempts, a 10-second
timeout then no timeout (source line 478). -/
def open_url (oracle : Option Nat → UrlOutcome) : UrlTrace :=
  open_url_go oracle [some 10, none]

/-- C2 counterexample: a first attempt that succeeds IS followed by a
second attempt — the loop has no early exit on success, so the open is
performed twice (both timeouts appear in the attempt trace), refuting
the claim that only a first-attempt timeout leads to a second attempt. -/
theorem url_first_success_still_retries :
    (open_url (fun _ => UrlOutcome.success)).attempts = [some 10, none]
    ∧ (open_url (fun _ => UrlOutcome.success)).attempts.length ≠ 1 := by
  exact ⟨rfl, by decide⟩

/-- C2 amended: the generic network open always runs the 10-second
attempt first; a first attempt failing with a non-timeout error raises
immediately with no second attempt and no warning; a first attempt
timing out emits exactly one warning and is followed by the untimed
attempt; and a first attempt that succeeds is nevertheless followed by
the untimed second attempt (with no warning), whose outcome determines
the final result. -/
theorem open_url_retry_amended (oracle : Option Nat → UrlOutcome) :
    (oracle (some 10) = UrlOutcome.hardFailure →
      open_url oracle = ⟨[some 10], 0, Except.error "cannot open URL"⟩)
    ∧ (oracle (some 10) = UrlOutcome.timedOut →
      (open_url oracle).attempts = [some 10, none]
      ∧ (open_url oracle).warnings = 1
      ∧ ((open_url oracle).result = Except.ok ()
          ↔ oracle none = UrlOutcome.success))
    ∧ (oracle (some 10) = UrlOutcome.success →
      (open_url oracle).attempts = [some 10, none]
      ∧ (open_url oracle).warnings = 0
      ∧ ((open_url oracle).result = Except.ok ()
          ↔ oracle none = UrlOutcome.success)) := by
  rcases h1 : oracle (some 10) <;> rcases h2 : oracle none <;>
    simp [open_url, open_url_go, h1, h2]

/-- C2 witness: instantiation at the all-failing, the
timeout-then-success, and the all-succeeding oracles. -/
theorem open_url_retry_amended_witness :
    open_url (fun _ => UrlOutcome.hardFailure)
        = ⟨[some 10], 0, Except.error "cannot open URL"⟩
    ∧ (open_url (fun t => if t.isSome then UrlOutcome.timedOut
          else UrlOutcome.success)).warnings = 1
    ∧ (open_url (fun _ => UrlOutcome.success)).warnings = 0 := by
  refine ⟨(open_url_retry_amended (fun _ => UrlOutcome.hardFailure)).1 rfl,
    ((open_url_retry_amended (fun t => if t.isSome then UrlOutcome.timedOut
      else UrlOutcome.success)).2.1 rfl).2.1,
    ((open_url_retry_amended (fun _ => UrlOutcome.success)).2.2 rfl).2.1⟩

/-- Why the feeder loop of `_read_thread` stopped. -/
inductive FeederExit where
  | eof
  | doneFlag
  | writeExc
deriving DecidableEq

/-- `_read_thread` (source lines 239-257): loop while the done flag is
unset, read a chunk, break on an empty read, write it to the decoder's
stdin; after the loop, close the decoder's stdin.  `done i` is the value
of `self._done` observed at iteration `i`; `write_ok i` tells whether
the write of iteration `i` succeeds (a failing write raises out of the
thread).  `chunks` are the successive read results (byte counts, `0`
meaning an empty read).  Returns whether `f_to.close()` was executed,
and the loop's exit cause. -/
def read_thread (done write_ok : Nat → Bool) :
    List Nat → Nat → Bool × FeederExit
  | chunks, i =>
    if done i then (true, .doneFlag)
    else
      match chunks with
      | [] => (true, .eof)
      | c :: rest =>
        if c = 0 then (true, .eof)
        else if write_ok i then read_thread done write_ok rest (i + 1)
        else (false, .writeExc)

/-- C5 counterexample: a write failure on the decoder's input terminates
the feeder thread by an uncaught exception, skipping `f_to.close()` —
the decoder input is NOT closed on that termination. -/
theorem feeder_write_failure_skips_close :
    read_thread (fun _ => false) (fun _ => false) [1] 0
      = (false, FeederExit.writeExc) := rfl

/-- C5 amended: the feeder closes the decoder's input exactly when the
copy loop exits through the done flag or an empty read (end of stream);
a failing write ends the thread without the close ever running. -/
theorem feeder_close_amended (done write_ok : Nat → Bool)
    (chunks : List Nat) (i : Nat) :
    (read_thread done write_ok chunks i).1 = false
      ↔ (read_thread done write_ok chunks i).2 = FeederExit.writeExc := by
  induction chunks generalizing i with
  | nil =>
    rw [read_thread]
    by_cases hd : done i <;> simp [hd]
  | cons c rest ih =>
    rw [read_thread]
    by_cases hd : done i
    · simp [hd]
    · by_cases hc : c = 0
      · simp [hd, hc]
      · by_cases hw : write_ok i <;> simp [hd, hc, hw, ih]

/-- Teardown-relevant state of a stream: the done flag, the kill flag of
every tracked child process, the joined flag of the reader thread (when
one exists), and the closed flag of every chain element. -/
structure StreamState where
  done : Bool
  child_killed : List Bool
  rthread_joined : Option Bool
  f_objs_closed : List Bool
deriving DecidableEq

/-- `TransRead.__del__` (source lines 226-237): set the done flag, kill
every child process, join the reader thread if there is one, close every
chain element.  Each primitive is idempotent at the OS/runtime level
(killing a dead process, joining a finished thread, and closing a closed
file are all harmless no-ops), which the flag-setting model reflects. -/
def TransRead_del (s : StreamState) : StreamState :=
  { done := true,
    child_killed := s.child_killed.map fun _ => true,
    rthread_joined := s.rthread_joined.map fun _ => true,
    f_objs_closed := s.f_objs_closed.map fun _ => true }

/-- `TransRead.close` (source lines 531-533) just calls `__del__`. -/
def TransRead_close (s : StreamState) : StreamState :=
  TransRead_del s

/-- C8: close() is idempotent — closing an already-closed stream changes
nothing (and the model is a total function: no step of the repeated
teardown can fail). -/
theorem close_idempotent (s : StreamState) :
    TransRead_close (TransRead_close s) = TransRead_close s := by
  simp [TransRead_close, TransRead_del, List.map_map, Option.map_map,
    Function.comp]

/-- Observable trace of one `TransRead.read(size)` call: the sizes of
the read calls issued on the last chain element, the byte count the
inner read returned, and the updated position counter. -/
structure ReadTrace where
  calls : List Nat
  returned : Nat
  new_pos : Nat
deriving DecidableEq

/-- `TransRead.read` (source lines 503-514): a negative size is replaced
by 0xFFFFFFFFFFFFFFFF, a single read of the last chain element is
issued, and the position advances by the length of the returned buffer.
`inner` maps a requested size to the byte count the last chain element
returns. -/
def TransRead_read (inner : Nat → Nat) (pos : Nat) (size : Int) : ReadTrace :=
  { calls := [if size < 0 then 0xFFFFFFFFFFFFFFFF else size.toNat],
    returned := inner (if size < 0 then 0xFFFFFFFFFFFFFFFF else size.toNat),
    new_pos := pos + inner (if size < 0 then 0xFFFFFFFFFFFFFFFF else size.toNat) }

/-- C10: read(size) with a negative size substitutes the fixed bound
2^64 - 1; every read issues exactly one inner read call and advances the
position by the number of bytes actually returned — "read to end" is a
single bounded read, not a drain loop. -/
theorem read_negative_size (inner : Nat → Nat) (pos : Nat) (size : Int) :
    (TransRead_read inner pos size).calls.length = 1
    ∧ (size < 0 → (TransRead_read inner pos size).calls = [2 ^ 64 - 1]
        ∧ (TransRead_read inner pos size).returned = inner (2 ^ 64 - 1))
    ∧ (TransRead_read inner pos size).new_pos
        = pos + (TransRead_read inner pos size).returned := by
  refine ⟨rfl, fun h => ⟨?_, ?_⟩, rfl⟩
  · show [if size < 0 then (0xFFFFFFFFFFFFFFFF : Nat) else size.toNat]
      = [2 ^ 64 - 1]
    rw [if_pos h]
    norm_num
  · show inner (if size < 0 then 0xFFFFFFFFFFFFFFFF else size.toNat)
      = inner (2 ^ 64 - 1)
    rw [if_pos h]
    congr 1

/-- C10 witness: instantiation at a negative size with an inner stream
that returns fewer bytes than requested. -/
theorem read_negative_size_witness :
    (TransRead_read (fun _ => 7) 5 (-1)).calls = [2 ^ 64 - 1]
    ∧ (TransRead_read (fun _ => 7) 5 (-1)).returned = (fun _ : Nat => 7) (2 ^ 64 - 1) :=
  (read_negative_size (fun _ => 7) 5 (-1)).2.1 (by decide)

/-- `os.SEEK_SET`. -/
def SEEK_SET : Nat := 0

/-- `os.SEEK_CUR`. -/
def SEEK_CUR : Nat := 1

/-- The discard-read loop of `_fake_seek_forward` (source lines
121-127): read chunks of at most 1 MiB and subtract their length from
`to_read`, stopping on an empty read.  The underlying stream holds
`remaining` bytes, and a read of `n` bytes returns `min n remaining`
bytes (a read never returns more than requested).  Returns the final
`to_read` and the bytes left in the stream. -/
def discard_loop (to_read : Int) (remaining : Nat) : Int × Nat :=
  if 0 < to_read then
    if min (min to_read (1024 * 1024)).toNat remaining = 0 then
      (to_read, remaining)
    else
      discard_loop (to_read - min (min to_read (1024 * 1024)).toNat remaining)
        (remaining - min (min to_read (1024 * 1024)).toNat remaining)
  else (to_read, remaining)
termination_by remaining
decreasing_by omega

/-- The discard loop consumes `min to_read remaining` bytes: the final
`to_read` is the shortfall (zero when enough data was available). -/
theorem discard_loop_fst (remaining : Nat) :
    ∀ to_read : Int, 0 ≤ to_read →
      (discard_loop to_read remaining).1
        = to_read - min to_read (remaining : Int) := by
  induction remaining using Nat.strong_induction_on with
  | _ remaining ih =>
    intro t ht
    unfold discard_loop
    by_cases hpos : 0 < t
    · rw [if_pos hpos]
      by_cases hbuf : min (min t (1024 * 1024)).toNat remaining = 0
      · rw [if_pos hbuf]
        show t = t - min t (remaining : Int)
        omega
      · rw [if_neg hbuf]
        rw [ih _ (by omega) _ (by omega)]
        omega
    · rw [if_neg hpos]
      show t = t - min t (remaining : Int)
      omega

/-- `_fake_seek_forward` (source lines 99-133): compute the target from
`whence` (only SEEK_SET and SEEK_CUR are accepted), refuse seeking
backward, discard-read forward, raise "seeked too far" only when the
final `to_read` went negative, and return the position actually
reached. -/
def fake_seek_forward (remaining : Nat) (cur_pos offset : Int)
    (whence : Nat) : Except String Int :=
  match (if whence = SEEK_SET then some offset
         else if whence = SEEK_CUR then some (cur_pos + offset)
         else none) with
  | none =>
    .error "seek method requires the whence argument to be 0 or 1"
  | some new_pos =>
    if new_pos < cur_pos then
      .error ("seek method supports only seeking forward, seeking from "
        ++ toString cur_pos ++ " to " ++ toString new_pos ++ " is not allowed")
    else if (discard_loop (new_pos - cur_pos) remaining).1 < 0 then
      .error ("seeked too far: "
        ++ toString (new_pos - (discard_loop (new_pos - cur_pos) remaining).1)
        ++ " instead of " ++ toString new_pos)
    else .ok (new_pos - (discard_loop (new_pos - cur_pos) remaining).1)

/-- C3 counterexample: a forward seek to offset 5 on a stream with 0
bytes available returns normally at position 0 — it does not fail even
though the target lies past the end of the data, refuting the claim that
such a seek raises an error reporting the partial advance. -/
theorem seek_past_end_returns_reached_position :
    fake_seek_forward 0 0 5 SEEK_SET = Except.ok 0
    ∧ ((0 : Int) + (0 : Nat) < 5) := by
  refine ⟨?_, by norm_num⟩
  have h := discard_loop_fst 0 5 (by norm_num)
  norm_num at h
  norm_num [fake_seek_forward, SEEK_SET, h]

/-- C3 amended: an emulated forward seek whose target lies beyond the
end of the available data returns normally at the position actually
reached (`min target (cur_pos + remaining)`); the "seeked too far" error
fires only if the discard count went negative, which cannot happen when
reads never return more than requested. -/
theorem fake_seek_amended (remaining : Nat) (cur_pos offset : Int)
    (h : cur_pos ≤ offset) :
    fake_seek_forward remaining cur_pos offset SEEK_SET
        = Except.ok (min offset (cur_pos + remaining))
    ∧ fake_seek_forward remaining cur_pos (offset - cur_pos) SEEK_CUR
        = Except.ok (min offset (cur_pos + remaining)) := by
  have hd := discard_loop_fst remaining (offset - cur_pos) (by omega)
  constructor
  · simp only [fake_seek_forward, SEEK_SET, SEEK_CUR]
    norm_num
    rw [if_neg (not_lt.mpr h), hd, if_neg (by omega)]
    congr 1
    omega
  · simp only [fake_seek_forward, SEEK_SET, SEEK_CUR]
    norm_num
    rw [if_neg (not_lt.mpr h), hd, if_neg (by omega)]
    congr 1
    omega

/-- C3 witness: seeking to 10 with 3 bytes available lands at 3. -/
theorem fake_seek_amended_witness :
    fake_seek_forward 3 0 10 SEEK_SET = Except.ok 3 := by
  have h := (fake_seek_amended 3 0 10 (by norm_num)).1
  rw [h]
  norm_num

